import Mathlib

/-!
Verification of the scheduled-polling subsystem of versus-incident.

Shallow embedding of `pkg/scheduler/scheduler.go` and
`pkg/scheduler/alertmanager_client.go`.  Go `map[string]string` values are
modelled as association lists `List (String × String)` with `List.lookup`;
Go `time.Time` values that only ever flow into RFC 3339 formatting are
modelled as the formatted strings themselves; the cron engine's expression
parser (third-party `robfig/cron`) is kept abstract as a predicate
`cronAccepts : String → Bool` handed to `addJob`.
-/

namespace VersusIncident

/-- Alert as decoded from the Alertmanager API
(struct `AlertmanagerAlert` in alertmanager_client.go).
`statusState` is the Go field `Status.State`; the nested silencing and
inhibition lists are not consulted by any code under verification. -/
structure AlertmanagerAlert where
  labels : List (String × String)
  annotations : List (String × String)
  startsAt : String
  endsAt : String
  statusState : String
  receivers : List String
  fingerprint : String
  generatorURL : String
  deriving Repr, DecidableEq

/-- Per-job channel overrides (struct `ScheduledChannelsConfig` in config.go). -/
structure ScheduledChannelsConfig where
  slackChannelID : String
  telegramChatID : String
  larkWebhookKey : String
  msteamsPowerURLKey : String
  emailTo : String
  deriving Repr, DecidableEq

/-- Alertmanager connection settings (struct `AlertmanagerConfig` in config.go). -/
structure AlertmanagerConfig where
  url : String
  username : String
  password : String
  deriving Repr, DecidableEq

/-- One scheduled job's configuration (struct `ScheduledJob` in config.go). -/
structure ScheduledJob where
  name : String
  enable : Bool
  schedule : String
  alertmanager : AlertmanagerConfig
  matchLabels : List (String × String)
  channels : ScheduledChannelsConfig
  deriving Repr, DecidableEq

/-- Go `strings.Split(s, sep)` for a single-character separator: the list of
substrings between consecutive occurrences of the separator.  An input with
no separator yields a one-element list; the empty string yields [""]. -/
def goSplit (sep : Char) : List Char → List (List Char)
  | [] => [[]]
  | x :: xs =>
    let rest := goSplit sep xs
    if x = sep then [] :: rest
    else
      match rest with
      | [] => [[x]]
      | r :: rs => (x :: r) :: rs

/-- Go `strings.TrimLeft(s, "0")`: drop every leading '0' character. -/
def trimLeftZeros (s : String) : String :=
  String.mk (s.toList.dropWhile (fun c => c == '0'))

/-- The field normalisation inside `ParseSimpleSchedule`: strip leading
zeros, and replace an all-zero (hence now empty) field by "0". -/
def normalizeField (s : String) : String :=
  let t := trimLeftZeros s
  if t = "" then "0" else t

/-- Go function `ParseSimpleSchedule` (scheduler.go, lines 218-235): split
the input on ":"; exactly two parts are required; each part has leading
zeros stripped (an all-zero field becoming "0") and the result is the
five-field daily cron pattern "minute hour * * *".  No numeric validation
is performed. -/
def ParseSimpleSchedule (simpleTime : String) : Except String String :=
  match (goSplit ':' simpleTime.toList).map String.mk with
  | [hourPart, minutePart] =>
    .ok (normalizeField minutePart ++ " " ++ normalizeField hourPart ++ " * * *")
  | _ => .error "invalid time format, expected HH:MM"

/-- Client-side state filter at the end of `GetFiringAlerts`
(alertmanager_client.go, lines 93-98): keep exactly the alerts whose
`Status.State` is the literal "active".  The HTTP transport, basic auth and
JSON decoding that precede it are external effects; a fetch as a whole is
modelled as `Except String (List AlertmanagerAlert)` where a successful
result has already passed through this filter. -/
def filterActiveAlerts (alerts : List AlertmanagerAlert) : List AlertmanagerAlert :=
  alerts.filter (fun a => a.statusState == "active")

/-- Go function `matchesLabels` (alertmanager_client.go, lines 120-127):
true iff every required key is present in the alert's labels with an
identical value. -/
def matchesLabels (alertLabels matchLabels : List (String × String)) : Bool :=
  matchLabels.all fun kv =>
    match alertLabels.lookup kv.1 with
    | some v => v == kv.2
    | none => false

/-- Go function `FilterAlertsByLabels` (alertmanager_client.go, lines
105-117): an empty matcher map returns the input unchanged; otherwise keep
the alerts whose labels satisfy `matchesLabels`. -/
def FilterAlertsByLabels (alerts : List AlertmanagerAlert)
    (matchLabels : List (String × String)) : List AlertmanagerAlert :=
  if matchLabels.length = 0 then alerts
  else alerts.filter (fun a => matchesLabels a.labels matchLabels)

/-- One entry of the payload's "alerts" array (alertmanager_client.go,
lines 138-146): a per-alert record copying the alert's state, labels,
annotations, RFC 3339 timestamps, fingerprint and generator URL. -/
structure AlertRecord where
  status : String
  labels : List (String × String)
  annotations : List (String × String)
  startsAt : String
  endsAt : String
  fingerprint : String
  generatorURL : String
  deriving Repr, DecidableEq

/-- The incident payload map built by `ConvertToIncidentPayload`
(alertmanager_client.go, lines 153-161); the Go `map[string]interface{}`
has this fixed key set, so it is modelled as a structure. -/
structure IncidentPayload where
  receiver : String
  status : String
  alerts : List AlertRecord
  commonLabels : List (String × String)
  commonAnnotations : List (String × String)
  externalURL : String
  groupKey : String
  deriving Repr, DecidableEq

/-- Go function `ConvertToIncidentPayload` (alertmanager_client.go, lines
130-164).  `nowUnix` stands for `time.Now().Unix()` used in the group key.
Empty input returns Go `nil`, modelled as `none`; otherwise the payload
carries one record per alert, common labels and annotations copied from
the first alert, receiver "scheduled-alert" and status "firing". -/
def ConvertToIncidentPayload (nowUnix : Nat) (alerts : List AlertmanagerAlert) :
    Option IncidentPayload :=
  match alerts with
  | [] => none
  | firstAlert :: _ =>
    some
      { receiver := "scheduled-alert"
        status := "firing"
        alerts := alerts.map fun a =>
          { status := a.statusState
            labels := a.labels
            annotations := a.annotations
            startsAt := a.startsAt
            endsAt := a.endsAt
            fingerprint := a.fingerprint
            generatorURL := a.generatorURL }
        commonLabels := firstAlert.labels
        commonAnnotations := firstAlert.annotations
        externalURL := ""
        groupKey := "scheduled-" ++ toString nowUnix }

/-- Go function `buildParamsFromJob` (scheduler.go, lines 165-189): the
parameter map starts with oncall_enable set to "false" and gains one entry
per non-empty channel-override field. -/
def buildParamsFromJob (job : ScheduledJob) : List (String × String) :=
  let params := [("oncall_enable", "false")]
  let params := if job.channels.slackChannelID ≠ "" then
      params ++ [("slack_channel_id", job.channels.slackChannelID)] else params
  let params := if job.channels.telegramChatID ≠ "" then
      params ++ [("telegram_chat_id", job.channels.telegramChatID)] else params
  let params := if job.channels.larkWebhookKey ≠ "" then
      params ++ [("lark_other_webhook_url", job.channels.larkWebhookKey)] else params
  let params := if job.channels.msteamsPowerURLKey ≠ "" then
      params ++ [("msteams_other_power_url", job.channels.msteamsPowerURLKey)] else params
  let params := if job.channels.emailTo ≠ "" then
      params ++ [("email_to", job.channels.emailTo)] else params
  params

/-- The payload handed to `services.CreateIncident`: the built incident
payload plus the scheduling metadata keys "scheduled_job" and
"scheduled_time" the job function overlays (scheduler.go, lines 148-149). -/
structure ScheduledPayload where
  base : IncidentPayload
  scheduledJob : String
  scheduledTime : String
  deriving Repr, DecidableEq

/-- One call to the dispatch sink `services.CreateIncident`
(scheduler.go, line 155): source tag, payload and parameter map. -/
structure DispatchCall where
  source : String
  payload : ScheduledPayload
  params : List (String × String)
  deriving Repr, DecidableEq

/-- One firing of the closure built by `createJobFunc` (scheduler.go, lines
111-162).  Inputs that the Go code obtains from the outside world are
explicit parameters: `registry` is the scheduler's job map `s.jobs`
(untouched by the closure), `fetchResult` the outcome of
`client.GetFiringAlerts()`, `nowUnix` and `nowStr` the trigger wall-clock
time.  The result is the list of dispatch calls made (empty or a single
call) paired with the registry after the firing; a dispatch error is only
logged, so it does not change either component.  Every error path returns
normally: nothing escalates past the firing. -/
def createJobFuncRun (job : ScheduledJob) (registry : List (String × Nat))
    (fetchResult : Except String (List AlertmanagerAlert))
    (nowUnix : Nat) (nowStr : String) : List DispatchCall × List (String × Nat) :=
  match fetchResult with
  | .error _ => ([], registry)
  | .ok alerts =>
    let matchedAlerts := FilterAlertsByLabels alerts job.matchLabels
    if matchedAlerts.length = 0 then ([], registry)
    else
      match ConvertToIncidentPayload nowUnix matchedAlerts with
      | none => ([], registry)
      | some payload =>
        let sp : ScheduledPayload :=
          { base := payload, scheduledJob := job.name, scheduledTime := nowStr }
        let params := buildParamsFromJob job
        ([{ source := "scheduled", payload := sp, params := params }], registry)

/-- Go method `addJob` (scheduler.go, lines 81-108).  The third-party cron
engine's expression parser is abstract: `cronAccepts` says which schedule
strings `cron.AddFunc` accepts.  A disabled job is skipped (`ok none`), an
empty schedule is an error, and otherwise the schedule string `job.schedule`
is handed verbatim to the engine — `ParseSimpleSchedule` is never invoked —
so the result records which string reached the engine (`ok (some s)`). -/
def addJob (cronAccepts : String → Bool) (job : ScheduledJob) :
    Except String (Option String) :=
  if !job.enable then .ok none
  else if job.schedule = "" then
    .error ("schedule is required for job " ++ job.name)
  else if cronAccepts job.schedule then .ok (some job.schedule)
  else .error ("invalid cron expression " ++ job.schedule)

/-- Sample job configuration used to instantiate theorems on concrete
inputs. -/
def sampleJob : ScheduledJob :=
  { name := "nightly"
    enable := true
    schedule := "0 9 * * *"
    alertmanager := { url := "http://alertmanager:9093", username := "", password := "" }
    matchLabels := [("team", "core")]
    channels :=
      { slackChannelID := "C123"
        telegramChatID := ""
        larkWebhookKey := ""
        msteamsPowerURLKey := ""
        emailTo := "" } }

/-- Sample job whose schedule uses the simple "HH:MM" shorthand. -/
def hhmmJob : ScheduledJob :=
  { sampleJob with name := "daily-report", schedule := "09:00" }

/-- Sample alert in the "active" state, used to instantiate theorems on
concrete inputs. -/
def sampleActiveAlert : AlertmanagerAlert :=
  { labels := [("team", "core"), ("severity", "high")]
    annotations := [("summary", "disk almost full")]
    startsAt := "2026-01-01T00:00:00Z"
    endsAt := "0001-01-01T00:00:00Z"
    statusState := "active"
    receivers := ["scheduled"]
    fingerprint := "abc123"
    generatorURL := "http://prometheus/graph" }

/-- The record `ConvertToIncidentPayload` builds for `sampleActiveAlert`. -/
def sampleRecord : AlertRecord :=
  { status := "active"
    labels := [("team", "core"), ("severity", "high")]
    annotations := [("summary", "disk almost full")]
    startsAt := "2026-01-01T00:00:00Z"
    endsAt := "0001-01-01T00:00:00Z"
    fingerprint := "abc123"
    generatorURL := "http://prometheus/graph" }

/-- The payload `ConvertToIncidentPayload` builds at time 5 from the single
sample alert. -/
def samplePayload : IncidentPayload :=
  { receiver := "scheduled-alert"
    status := "firing"
    alerts := [sampleRecord]
    commonLabels := [("team", "core"), ("severity", "high")]
    commonAnnotations := [("summary", "disk almost full")]
    externalURL := ""
    groupKey := "scheduled-5" }

/-! ## Helper lemmas -/

/-- The boolean matcher agrees with the conjunctive exact-match property. -/
theorem matchesLabels_iff (lbls P : List (String × String)) :
    matchesLabels lbls P = true ↔ ∀ kv ∈ P, lbls.lookup kv.1 = some kv.2 := by
  unfold matchesLabels
  rw [List.all_eq_true]
  constructor
  · intro h kv hkv
    have hx := h kv hkv
    cases hl : lbls.lookup kv.1 with
    | none => rw [hl] at hx; simp at hx
    | some v =>
      rw [hl] at hx
      simp only [beq_iff_eq] at hx
      rw [hx]
  · intro h kv hkv
    rw [h kv hkv]
    simp

/-- Label filtering never invents alerts: members of the output were
members of the input. -/
theorem mem_of_mem_filterAlerts {a : AlertmanagerAlert}
    {A : List AlertmanagerAlert} {P : List (String × String)}
    (h : a ∈ FilterAlertsByLabels A P) : a ∈ A := by
  unfold FilterAlertsByLabels at h
  split at h
  · exact h
  · exact (List.mem_filter.mp h).1

/-- The oncall_enable parameter a job produces is always "false". -/
theorem buildParamsFromJob_oncall (job : ScheduledJob) :
    (buildParamsFromJob job).lookup "oncall_enable" = some "false" := by
  unfold buildParamsFromJob
  split_ifs <;> rfl

/-- Go split never returns an empty list of parts. -/
theorem goSplit_ne_nil (sep : Char) (l : List Char) : goSplit sep l ≠ [] := by
  induction l with
  | nil => simp [goSplit]
  | cons x xs ih =>
    unfold goSplit
    split
    · simp
    · cases h : goSplit sep xs with
      | nil => exact absurd h ih
      | cons r rs => simp [h]

/-- Go split produces one part more than the number of separators. -/
theorem goSplit_length (sep : Char) (l : List Char) :
    (goSplit sep l).length = l.count sep + 1 := by
  induction l with
  | nil => simp [goSplit]
  | cons x xs ih =>
    unfold goSplit
    split
    · rename_i hx
      simp [List.count_cons, hx, ih]
    · rename_i hx
      cases h : goSplit sep xs with
      | nil => exact absurd h (goSplit_ne_nil sep xs)
      | cons r rs =>
        have : (x :: xs).count sep = xs.count sep := by
          simp [List.count_cons, hx]
        rw [this, ← ih, h]
        simp

/-! ## Claim theorems -/

/-- C5: ParseSimpleSchedule maps "09:00" to "0 9 * * *", "09:05" to
"5 9 * * *" and "9:0" to "0 9 * * *", and rejects the malformed input
"900" with a format error. -/
theorem parseSimpleSchedule_examples :
    ParseSimpleSchedule "09:00" = .ok "0 9 * * *" ∧
    ParseSimpleSchedule "09:05" = .ok "5 9 * * *" ∧
    ParseSimpleSchedule "9:0" = .ok "0 9 * * *" ∧
    ParseSimpleSchedule "900" = .error "invalid time format, expected HH:MM" :=
  ⟨rfl, rfl, rfl, rfl⟩

/-- C8: filtering with the empty predicate is the identity on every alert
sequence, an explicit passthrough rather than a match-nothing filter. -/
theorem filterAlerts_empty_predicate_id (A : List AlertmanagerAlert) :
    FilterAlertsByLabels A [] = A := rfl

/-- C2: the filtered sequence is an order-preserving subsequence of the
input, and an alert of the input appears in the output iff every predicate
key is present in its labels with an identical value. -/
theorem filterAlerts_spec (A : List AlertmanagerAlert) (P : List (String × String)) :
    List.Sublist (FilterAlertsByLabels A P) A ∧
    ∀ a ∈ A, (a ∈ FilterAlertsByLabels A P ↔ ∀ kv ∈ P, a.labels.lookup kv.1 = some kv.2) := by
  unfold FilterAlertsByLabels
  by_cases hP : P.length = 0
  · have hPnil : P = [] := List.length_eq_zero.mp hP
    subst hPnil
    constructor
    · simp
    · intro a ha
      simp [ha]
  · simp only [if_neg hP]
    refine ⟨List.filter_sublist A, fun a ha => ?_⟩
    rw [List.mem_filter, matchesLabels_iff]
    exact ⟨fun h => h.2, fun h => ⟨ha, h⟩⟩

/-- Witness for C2 at a concrete input: the sample alert carries the label
pair ("team", "core"), so it survives filtering by that predicate. -/
theorem filterAlerts_spec_witness :
    sampleActiveAlert ∈ FilterAlertsByLabels [sampleActiveAlert] [("team", "core")] :=
  ((filterAlerts_spec [sampleActiveAlert] [("team", "core")]).2 sampleActiveAlert
    (by simp)).mpr (by decide)

/-- C3: on every non-empty alert sequence the builder returns a payload
whose top-level status is the literal "firing" and whose common labels and
annotations are those of the first alert of the sequence. -/
theorem convert_nonempty_firing (nowUnix : Nat) (a0 : AlertmanagerAlert)
    (rest : List AlertmanagerAlert) :
    ∃ p, ConvertToIncidentPayload nowUnix (a0 :: rest) = some p ∧
      p.status = "firing" ∧ p.commonLabels = a0.labels ∧
      p.commonAnnotations = a0.annotations :=
  ⟨_, rfl, rfl, rfl, rfl⟩

/-- C4 (amended): the parameter map of every job contains oncall_enable,
always set to "false" for schedule-triggered incidents (the code offers no
per-job override), and contains each channel key exactly when the
corresponding job channel-override field is non-empty, mapped from that
field's value. -/
theorem buildParamsFromJob_spec (job : ScheduledJob) :
    (buildParamsFromJob job).lookup "oncall_enable" = some "false" ∧
    (buildParamsFromJob job).lookup "slack_channel_id" =
      (if job.channels.slackChannelID ≠ "" then some job.channels.slackChannelID else none) ∧
    (buildParamsFromJob job).lookup "telegram_chat_id" =
      (if job.channels.telegramChatID ≠ "" then some job.channels.telegramChatID else none) ∧
    (buildParamsFromJob job).lookup "lark_other_webhook_url" =
      (if job.channels.larkWebhookKey ≠ "" then some job.channels.larkWebhookKey else none) ∧
    (buildParamsFromJob job).lookup "msteams_other_power_url" =
      (if job.channels.msteamsPowerURLKey ≠ "" then some job.channels.msteamsPowerURLKey else none) ∧
    (buildParamsFromJob job).lookup "email_to" =
      (if job.channels.emailTo ≠ "" then some job.channels.emailTo else none) := by
  unfold buildParamsFromJob
  split_ifs <;> exact ⟨rfl, rfl, rfl, rfl, rfl, rfl⟩

/-- Counterexample for C4 as stated: on-call escalation is not overridable
per job; no job configuration can make the oncall_enable parameter differ
from "false". -/
theorem oncall_enable_not_overridable :
    (∃ job : ScheduledJob,
      (buildParamsFromJob job).lookup "oncall_enable" ≠ some "false") ↔ False := by
  rw [iff_false]
  rintro ⟨job, h⟩
  exact h (buildParamsFromJob_oncall job)

/-- C6: a firing whose fetch step fails returns without producing any
dispatch call and leaves the scheduler's job registry exactly as it was;
the firing function returns normally, so the failure cannot escalate
beyond that firing or deregister the job. -/
theorem fetchError_no_dispatch (job : ScheduledJob) (registry : List (String × Nat))
    (err : String) (nowUnix : Nat) (nowStr : String) :
    createJobFuncRun job registry (.error err) nowUnix nowStr = ([], registry) := rfl

/-- C7: the builder maps the empty alert sequence to the explicit empty
result, and a firing whose filtered alert set is empty makes no dispatch
call (and leaves the registry untouched). -/
theorem emptyAlerts_no_dispatch :
    (∀ nowUnix : Nat, ConvertToIncidentPayload nowUnix [] = none) ∧
    ∀ (job : ScheduledJob) (registry : List (String × Nat))
      (alerts : List AlertmanagerAlert) (nowUnix : Nat) (nowStr : String),
      FilterAlertsByLabels alerts job.matchLabels = [] →
      createJobFuncRun job registry (.ok alerts) nowUnix nowStr = ([], registry) := by
  refine ⟨fun _ => rfl, ?_⟩
  intro job registry alerts nowUnix nowStr h
  simp [createJobFuncRun, h]

/-- Witness for C7 at a concrete input: a fetch returning no alerts leads
to a firing of the sample job with no dispatch call. -/
theorem emptyAlerts_no_dispatch_witness :
    ConvertToIncidentPayload 0 [] = none ∧
    createJobFuncRun sampleJob [("nightly", 1)] (.ok []) 0 "2026-01-01T09:00:00Z" =
      ([], [("nightly", 1)]) :=
  ⟨emptyAlerts_no_dispatch.1 0,
   emptyAlerts_no_dispatch.2 sampleJob [("nightly", 1)] [] 0 "2026-01-01T09:00:00Z" rfl⟩

/-- C9: whenever the payload is built from alerts that passed the fetch
client's state filter (and any label filter), every per-alert record's
status is copied verbatim from the alert's backend state — hence equals
"active" — and differs from the payload's top-level status "firing". -/
theorem convert_record_status (nowUnix : Nat) (raw : List AlertmanagerAlert)
    (P : List (String × String)) (p : IncidentPayload)
    (h : ConvertToIncidentPayload nowUnix
      (FilterAlertsByLabels (filterActiveAlerts raw) P) = some p) :
    p.status = "firing" ∧
    p.alerts.map AlertRecord.status =
      (FilterAlertsByLabels (filterActiveAlerts raw) P).map AlertmanagerAlert.statusState ∧
    ∀ r ∈ p.alerts, r.status = "active" ∧ r.status ≠ p.status := by
  cases hA : FilterAlertsByLabels (filterActiveAlerts raw) P with
  | nil => rw [hA] at h; exact absurd h (by simp [ConvertToIncidentPayload])
  | cons a0 rest =>
    rw [hA] at h
    unfold ConvertToIncidentPayload at h
    rw [Option.some.injEq] at h
    subst h
    refine ⟨rfl, by simp, ?_⟩
    intro r hr
    simp only [List.mem_map] at hr
    obtain ⟨a, ha, hra⟩ := hr
    have hmem : a ∈ filterActiveAlerts raw := by
      refine mem_of_mem_filterAlerts (A := filterActiveAlerts raw) (P := P) ?_
      rw [hA]
      exact ha
    have hactive : a.statusState = "active" := by
      have := (List.mem_filter.mp hmem).2
      simpa using this
    subst hra
    simp [hactive]

/-- Witness for C9 at a concrete input: the payload built from the single
sample active alert has status "firing" while its one record has status
"active". -/
theorem convert_record_status_witness :
    samplePayload.status = "firing" ∧
    sampleRecord.status = "active" ∧ sampleRecord.status ≠ samplePayload.status :=
  ⟨(convert_record_status 5 [sampleActiveAlert] [] samplePayload (by rfl)).1,
   (convert_record_status 5 [sampleActiveAlert] [] samplePayload (by rfl)).2.2
     sampleRecord (by decide)⟩

/-- C10: ParseSimpleSchedule fails (with the fixed format error) exactly
when its input does not split on ":" into two parts — the split yields one
part more than the number of colons, so success means exactly one colon —
and on any two-part split, numeric or not, it returns the pattern built
from the colon-stripped parts followed by " * * *", with no numeric
validation. -/
theorem parseSimpleSchedule_error_iff (s : String) :
    (goSplit ':' s.toList).length = s.toList.count ':' + 1 ∧
    (ParseSimpleSchedule s = .error "invalid time format, expected HH:MM" ↔
      (goSplit ':' s.toList).length ≠ 2) ∧
    ∀ h m, (goSplit ':' s.toList).map String.mk = [h, m] →
      ParseSimpleSchedule s = .ok (normalizeField m ++ " " ++ normalizeField h ++ " * * *") := by
  refine ⟨goSplit_length ':' s.toList, ?_, ?_⟩
  · unfold ParseSimpleSchedule
    cases hsp : (goSplit ':' s.toList).map String.mk with
    | nil => exact absurd hsp (by simp [goSplit_ne_nil])
    | cons h1 t1 =>
      cases t1 with
      | nil =>
        have hlen : (goSplit ':' s.toList).length = 1 := by
          have := congrArg List.length hsp
          simpa using this
        simp only [ne_eq, true_iff]
        show ¬(goSplit ':' s.toList).length = 2
        omega
      | cons h2 t2 =>
        cases t2 with
        | nil =>
          have hlen : (goSplit ':' s.toList).length = 2 := by
            have := congrArg List.length hsp
            simpa using this
          simp only [ne_eq, reduceCtorEq, false_iff, not_not]
          exact hlen
        | cons h3 t3 =>
          have hlen : (goSplit ':' s.toList).length = t3.length + 3 := by
            have := congrArg List.length hsp
            simpa using this
          simp only [ne_eq, true_iff]
          show ¬(goSplit ':' s.toList).length = 2
          omega
  · intro h m hsp
    unfold ParseSimpleSchedule
    rw [hsp]

/-- Witness for C10 at a concrete input: "99:99" splits into two parts and
is accepted without numeric validation, yielding "99 99 * * *". -/
theorem parseSimpleSchedule_error_iff_witness :
    ParseSimpleSchedule "99:99" =
      .ok (normalizeField "99" ++ " " ++ normalizeField "99" ++ " * * *") :=
  (parseSimpleSchedule_error_iff "99:99").2.2 "99" "99" (by rfl)

/-- C1 (code evaluated at the failing input): the HH:MM translation exists
and maps "09:00" to "0 9 * * *", but registration never applies it — for
every behaviour of the cron engine's parser, addJob on the enabled job with
schedule "09:00" either hands the raw string "09:00" to the engine or
fails; the translated daily pattern is never the string registered. -/
theorem addJob_never_translates_hhmm :
    ParseSimpleSchedule "09:00" = .ok "0 9 * * *" ∧
    ∀ cronAccepts : String → Bool,
      (addJob cronAccepts hhmmJob = .ok (some "09:00") ∨
        addJob cronAccepts hhmmJob = .error ("invalid cron expression " ++ "09:00")) ∧
      addJob cronAccepts hhmmJob ≠ .ok (some "0 9 * * *") := by
  refine ⟨rfl, fun cronAccepts => ?_⟩
  have henable : hhmmJob.enable = true := rfl
  have hsched : hhmmJob.schedule = "09:00" := rfl
  unfold addJob
  rw [henable, hsched]
  cases hacc : cronAccepts "09:00" <;> simp [hhmmJob, sampleJob]

end VersusIncident
